import Mathlib

/-!
Verification of the conversational prompt assembly and suggestion-extraction
engine of the chat-application AI microservice (`main.py`).

The Python source is shallowly embedded: each endpoint becomes a pure Lean
function taking the request fields together with an abstract description of
the upstream HTTP exchange (`Upstream`), and returning either the response
value or the raised HTTP error (`Except HTTPException _`).  Python string
operations are modelled by executable functions on the character list of a
`String`, matching Python semantics (`str.split`, `str.strip`, `str.lower`,
`in`, slicing, `startswith`).
-/

/-- Python `str.strip()` default whitespace set, restricted to ASCII
(the inputs handled by the service's parsing logic are ASCII). -/
def isPyWhitespace (c : Char) : Bool :=
  c = ' ' || c = '\t' || c = '\n' || c = '\r' || c = '\x0b' || c = '\x0c'

/-- Python `s.strip()`: remove leading and trailing whitespace. -/
def pyStrip (s : String) : String :=
  String.mk (((s.data.dropWhile isPyWhitespace).reverse.dropWhile isPyWhitespace).reverse)

/-- Helper for `pySplitLines`: accumulate characters of the current segment
(reversed) and cut at every newline, as Python `s.split('\n')` does. -/
def splitLinesAux : List Char → List Char → List String
  | [], acc => [String.mk acc.reverse]
  | c :: cs, acc =>
    if c = '\n' then String.mk acc.reverse :: splitLinesAux cs []
    else splitLinesAux cs (c :: acc)

/-- Python `s.split('\n')`.  As in Python, `"".split('\n') == [""]` and a
trailing newline produces a trailing empty segment. -/
def pySplitLines (s : String) : List String :=
  splitLinesAux s.data []

/-- Python `s.startswith(p)`. -/
def pyStartsWith (s p : String) : Bool :=
  p.data.isPrefixOf s.data

/-- Python slicing `s[n:]` (by code point, as Python indexes strings). -/
def pyDropChars (s : String) (n : Nat) : String :=
  String.mk (s.data.drop n)

/-- Python `s.lower()` (ASCII case folding; the keyword tests of the
fallback selector are all ASCII). -/
def pyLower (s : String) : String :=
  String.mk (s.data.map Char.toLower)

/-- Helper for `pyContains`: does `pat` occur in the character list? -/
def containsSubAux (pat : List Char) : List Char → Bool
  | [] => pat.isEmpty
  | c :: cs => pat.isPrefixOf (c :: cs) || containsSubAux pat cs

/-- Python `pat in s` on strings: substring containment. -/
def pyContains (s pat : String) : Bool :=
  containsSubAux pat.data s.data

/-- A chat message as carried by `SmartReplyRequest.recent_messages`:
a record with `author` and `content` fields. -/
structure Message where
  author : String
  content : String
deriving DecidableEq, Repr

/-- `fastapi.HTTPException`: a status code and a detail message. -/
structure HTTPException where
  statusCode : Nat
  detail : String
deriving DecidableEq, Repr

/-- `str(e)` for a `fastapi.HTTPException` (starlette renders it as
`"{status_code}: {detail}"`). -/
def strHTTPException (e : HTTPException) : String :=
  toString e.statusCode ++ ": " ++ e.detail

/-- One entry of the JSON array returned by the inference API.
`record g` is a dict whose optional `generated_text` field holds `g`;
`bad msg` is any entry on which `.get(...)`/`.strip()` raises (e.g. a
plain string or a non-string field), `msg` being `str` of the raised
exception. -/
inductive Entry where
  | record (genText : Option String)
  | bad (msg : String)
deriving DecidableEq, Repr

/-- The JSON value `response.json()` parses to: either a list of entries
or any non-list value (dict, string, number, ...). -/
inductive ResponseData where
  | list (entries : List Entry)
  | nonList
deriving DecidableEq, Repr

/-- The upstream HTTP exchange performed by `requests.post`, abstracted:
either the request itself raised (network failure, `msg` = `str` of the
exception), or a response came back with a status code, a body text and
its parsed JSON. -/
inductive Upstream where
  | unreachable (msg : String)
  | httpResponse (status : Nat) (body : String) (json : ResponseData)
deriving DecidableEq, Repr

/-- An exception escaping `query_huggingface`: the `HTTPException` it
raises on a non-200 status, or any other exception (network error,
attribute error on a malformed entry, ...). -/
inductive PyError where
  | httpExc (e : HTTPException)
  | otherExc (msg : String)
deriving DecidableEq, Repr

/-- Python `str(e)` on a `PyError`. -/
def strPyError : PyError → String
  | PyError.httpExc e => strHTTPException e
  | PyError.otherExc msg => msg

/-- `query_huggingface` (main.py lines 52-59): posts the payload and
either raises (network failure), raises `HTTPException(status, "Error
from Hugging Face API: " + response.text)` on a non-200 status, or
returns the parsed JSON. -/
def query_huggingface : Upstream → Except PyError ResponseData
  | Upstream.unreachable msg => Except.error (PyError.otherExc msg)
  | Upstream.httpResponse status body json =>
    if status ≠ 200 then
      Except.error (PyError.httpExc ⟨status, "Error from Hugging Face API: " ++ body⟩)
    else
      Except.ok json

/-- A `<|user|>` block of the zephyr chat template. -/
def userBlock (s : String) : String :=
  "<|user|>\n" ++ s ++ "</s>"

/-- An `<|assistant|>` block of the zephyr chat template. -/
def assistantBlock (s : String) : String :=
  "<|assistant|>\n" ++ s ++ "</s>"

/-- Prompt assembly of the `chat` endpoint (main.py lines 80-92):
interleave the zipped past user inputs and generated responses as
user/assistant blocks, append the latest user message and the bare
assistant marker, and join everything with single line breaks. -/
def buildChatPrompt (pastUserInputs generatedResponses : List String) (text : String) : String :=
  String.intercalate "\n"
    (((pastUserInputs.zip generatedResponses).flatMap
        (fun p => [userBlock p.1, assistantBlock p.2]))
      ++ [userBlock text, "<|assistant|>"])

/-- `chat` endpoint (main.py lines 74-115).  The prompt assembly is
`buildChatPrompt`; the response shaping is modelled here against the
abstract upstream exchange.  Any exception inside the `try` block —
including the `HTTPException` raised by `query_huggingface` itself —
is caught and re-raised as `HTTPException(500, str(e))`. -/
def chat (pastUserInputs generatedResponses : List String) (text : String)
    (upstream : Upstream) : Except HTTPException String :=
  match query_huggingface upstream with
  | Except.error e => Except.error ⟨500, strPyError e⟩
  | Except.ok responseData =>
    match responseData with
    | ResponseData.list (Entry.record genText :: _) =>
        Except.ok (pyStrip (genText.getD ""))
    | ResponseData.list (Entry.bad msg :: _) =>
        Except.error ⟨500, msg⟩
    | _ => Except.ok "I am not sure how to respond to that."

/-- The recognized leading list-marker tokens, in the order the source
iterates over them (main.py line 164). -/
def markers : List String :=
  ["1.", "2.", "3.", "-", "*", "•"]

/-- One step of the marker-stripping loop: if the line starts with the
marker, remove it and re-strip whitespace. -/
def stripStep (line p : String) : String :=
  if pyStartsWith line p then pyStrip (pyDropChars line p.length) else line

/-- Per-line clean-up of the extractor (main.py lines 162-166): strip the
line, then run the marker loop — each marker of `markers` is tried once,
in order, and stripped when it matches at that moment. -/
def cleanLine (l : String) : String :=
  markers.foldl stripStep (pyStrip l)

/-- The acceptance test of the extractor (main.py line 168): Python
`line and len(line) > 3 and len(line) < 100`. -/
def acceptsLine (line : String) : Bool :=
  line != "" && decide (3 < line.length) && decide (line.length < 100)

/-- The accepting loop of the extractor (main.py lines 160-172): walk the
lines, clean each, append it when it passes `acceptsLine`, and break as
soon as the accumulator reaches `maxS`. -/
def extractLoop (maxS : Nat) : List String → List String → List String
  | [], acc => acc
  | l :: rest, acc =>
    let line := cleanLine l
    let acc2 := if acceptsLine line then acc ++ [line] else acc
    if maxS ≤ acc2.length then acc2 else extractLoop maxS rest acc2

/-- SuggestionExtractor: parse the (already stripped) generated text into
at most `maxS` cleaned suggestion lines. -/
def extractSuggestions (generatedText : String) (maxS : Nat) : List String :=
  extractLoop maxS (pySplitLines generatedText) []

/-- FallbackSelector, context tiers (main.py lines 176-189): inspect the
lower-cased content of the most recent message and apply the first
matching rule; with no prior message return the no-context set. -/
def contextFallback (recentMessages : List Message) : List String :=
  match recentMessages.getLast? with
  | some lastMessage =>
    let lastContent := pyLower lastMessage.content
    if pyContains lastContent "?" then
      ["Thanks for asking!", "Let me think about that", "Good question!"]
    else if pyContains lastContent "thanks" || pyContains lastContent "thank you" then
      ["You\x27re welcome!", "No problem!", "Happy to help!"]
    else if pyContains lastContent "meeting" then
      ["Sounds good!", "I\x27ll be there", "What time works?"]
    else
      ["Got it!", "Makes sense", "Thanks for the update"]
  | none => ["Hi there!", "Thanks!", "Sounds good!"]

/-- ConversationWindow: Python `recent_messages[-10:]` (main.py line 125),
the last `min 10 L` messages in order. -/
def windowMessages (msgs : List Message) : List Message :=
  msgs.drop (msgs.length - 10)

/-- Render one windowed message as `"{author}: {content}"`
(main.py line 126). -/
def renderLine (m : Message) : String :=
  m.author ++ ": " ++ m.content

/-- The conversation transcript block: windowed lines joined by line
breaks (main.py line 128). -/
def renderTranscript (msgs : List Message) : String :=
  String.intercalate "\n" (msgs.map renderLine)

/-- The instruction text of the smart-reply prompt up to the transcript
interpolation point (main.py lines 131-136). -/
def smartHeader (currentUser : String) : String :=
  "<|user|>\nBased on this conversation, suggest 3 short, appropriate replies that "
    ++ currentUser
    ++ " could send. \nMake them natural, contextual, and varied in tone (e.g., one professional, one casual, one question).\nEach reply should be on a new line and be concise (under 20 words).\n\nConversation:\n"

/-- The tail of the smart-reply prompt after the transcript interpolation
point (main.py lines 138-140), ending with the bare assistant marker. -/
def smartFooter (currentUser : String) : String :=
  "\n\nGenerate 3 reply suggestions for " ++ currentUser ++ ":</s>\n<|assistant|>"

/-- PromptAssembler, suggestion-context grammar (main.py lines 124-140):
instruction, transcript of the windowed messages, closing instruction and
bare assistant marker. -/
def buildSmartPrompt (recentMessages : List Message) (currentUser : String) : String :=
  smartHeader currentUser
    ++ renderTranscript (windowMessages recentMessages)
    ++ smartFooter currentUser

/-- The fixed suggestion set of the `except` branch (main.py line 200),
returned when any exception is raised on the smart-reply path. -/
def hardFailureSuggestions : List String :=
  ["Thanks!", "Got it!", "Let me check on that"]

/-- The fixed suggestion set of the malformed-response branch
(main.py line 195), returned on a success response whose JSON is not a
non-empty list. -/
def malformedResponseSuggestions : List String :=
  ["Thanks!", "Got it!", "Sounds good!"]

/-- `generate_smart_replies` endpoint (main.py lines 117-200).  The prompt
sent upstream is `buildSmartPrompt`; the response shaping is modelled
against the abstract upstream exchange.  On a success response that is a
non-empty list whose first entry is a record, the generated text is
stripped, parsed by `extractSuggestions`, replaced by `contextFallback`
when extraction is empty, and truncated to `maxSuggestions`; a success
response of any other shape returns `malformedResponseSuggestions`
untruncated; any exception (network failure, non-200 status, malformed
first entry) returns `hardFailureSuggestions` untruncated. -/
def generate_smart_replies (recentMessages : List Message) (currentUser : String)
    (maxSuggestions : Nat) (upstream : Upstream) : List String :=
  match query_huggingface upstream with
  | Except.error _ => hardFailureSuggestions
  | Except.ok responseData =>
    match responseData with
    | ResponseData.list (Entry.record genText :: _) =>
      let generatedText := pyStrip (genText.getD "")
      let extracted := extractSuggestions generatedText maxSuggestions
      let suggestions :=
        if extracted.isEmpty then contextFallback recentMessages else extracted
      suggestions.take maxSuggestions
    | ResponseData.list (Entry.bad _ :: _) => hardFailureSuggestions
    | _ => malformedResponseSuggestions

/-! ## Helper lemmas -/

theorem intercalate_go_last (s y : String) :
    ∀ (xs : List String) (acc : String),
      ∃ p : String, String.intercalate.go acc s (xs ++ [y]) = p ++ y := by
  intro xs
  induction xs with
  | nil =>
    intro acc
    exact ⟨acc ++ s, rfl⟩
  | cons x xs ih =>
    intro acc
    exact ih (acc ++ s ++ x)

theorem intercalate_last (s y : String) (xs : List String) :
    ∃ p : String, String.intercalate s (xs ++ [y]) = p ++ y := by
  cases xs with
  | nil => exact ⟨"", by simp [String.intercalate, String.intercalate.go]⟩
  | cons x xs =>
    show ∃ p, String.intercalate.go x s (xs ++ [y]) = p ++ y
    exact intercalate_go_last s y xs x

theorem append_marker_ne_empty (p m : String) (h : m.length ≠ 0) : p ++ m ≠ "" := by
  intro hEq
  have hLen : (p ++ m).length = (0 : Nat) := by rw [hEq]; rfl
  rw [String.length_append] at hLen
  omega

theorem zip_take_min {α β : Type} :
    ∀ (l1 : List α) (l2 : List β),
      (l1.take (min l1.length l2.length)).zip (l2.take (min l1.length l2.length)) = l1.zip l2 := by
  intro l1
  induction l1 with
  | nil => intro l2; simp
  | cons a l1 ih =>
    intro l2
    cases l2 with
    | nil => simp
    | cons b l2 =>
      simp only [List.length_cons, Nat.succ_min_succ, List.take_succ_cons, List.zip_cons_cons]
      rw [ih l2]

theorem contextFallback_length (recentMessages : List Message) :
    (contextFallback recentMessages).length = 3 := by
  unfold contextFallback
  cases recentMessages.getLast? with
  | none => rfl
  | some m =>
    simp only []
    split
    · rfl
    · split
      · rfl
      · split
        · rfl
        · rfl

theorem extractLoop_nil (maxS : Nat) (acc : List String) :
    extractLoop maxS [] acc = acc := rfl

theorem extractLoop_cons (maxS : Nat) (l : String) (rest acc : List String) :
    extractLoop maxS (l :: rest) acc =
      (if maxS ≤ (if acceptsLine (cleanLine l) then acc ++ [cleanLine l] else acc).length
       then (if acceptsLine (cleanLine l) then acc ++ [cleanLine l] else acc)
       else extractLoop maxS rest
         (if acceptsLine (cleanLine l) then acc ++ [cleanLine l] else acc)) := by
  rfl

theorem extractLoop_length_le (maxS : Nat) :
    ∀ (lines acc : List String), acc.length < maxS →
      (extractLoop maxS lines acc).length ≤ maxS := by
  intro lines
  induction lines with
  | nil =>
    intro acc h
    rw [extractLoop_nil]
    exact Nat.le_of_lt h
  | cons l rest ih =>
    intro acc h
    rw [extractLoop_cons]
    cases hb : acceptsLine (cleanLine l) <;> simp only [hb, if_true, if_false, Bool.false_eq_true]
    · split
      · next hBreak => omega
      · exact ih acc h
    · split
      · next hBreak =>
          simp only [List.length_append, List.length_cons, List.length_nil]
          omega
      · next hBreak =>
          apply ih
          simp only [List.length_append, List.length_cons, List.length_nil] at hBreak ⊢
          omega

theorem extractLoop_mem (maxS : Nat) :
    ∀ (lines acc : List String),
      (∀ s ∈ acc, 3 < s.length ∧ s.length < 100) →
      ∀ s ∈ extractLoop maxS lines acc, 3 < s.length ∧ s.length < 100 := by
  intro lines
  induction lines with
  | nil =>
    intro acc h
    rw [extractLoop_nil]
    exact h
  | cons l rest ih =>
    intro acc h
    rw [extractLoop_cons]
    cases hb : acceptsLine (cleanLine l) <;> simp only [hb, if_true, if_false, Bool.false_eq_true]
    · split
      · exact h
      · exact ih acc h
    · have hAcc2 : ∀ s ∈ acc ++ [cleanLine l], 3 < s.length ∧ s.length < 100 := by
        intro s hs
        rcases List.mem_append.mp hs with hs | hs
        · exact h s hs
        · rcases List.mem_singleton.mp hs with rfl
          have hb2 := hb
          simp only [acceptsLine, Bool.and_eq_true, decide_eq_true_eq] at hb2
          exact ⟨hb2.1.2, hb2.2⟩
      split
      · exact hAcc2
      · exact ih _ hAcc2

theorem extractLoop_acc_sublist (maxS : Nat) :
    ∀ (lines acc : List String),
      ∃ r, extractLoop maxS lines acc = acc ++ r ∧ r.Sublist (lines.map cleanLine) := by
  intro lines
  induction lines with
  | nil =>
    intro acc
    refine ⟨[], ?_, List.nil_sublist _⟩
    rw [List.append_nil, extractLoop_nil]
  | cons l rest ih =>
    intro acc
    rw [extractLoop_cons]
    simp only [List.map_cons]
    cases hb : acceptsLine (cleanLine l) <;> simp only [if_true, if_false, Bool.false_eq_true]
    · split
      · exact ⟨[], by simp⟩
      · rcases ih acc with ⟨r, hEq, hSub⟩
        exact ⟨r, hEq, List.Sublist.cons _ hSub⟩
    · split
      · exact ⟨[cleanLine l], rfl, List.Sublist.cons₂ _ (List.nil_sublist _)⟩
      · rcases ih (acc ++ [cleanLine l]) with ⟨r, hEq, hSub⟩
        refine ⟨cleanLine l :: r, ?_, List.Sublist.cons₂ _ hSub⟩
        rw [hEq, List.append_assoc]
        rfl

/-! ## Claims -/

/-- C6: for every raw generation and requested maximum `M ≥ 1`,
`extractSuggestions` returns at most `M` suggestions, each of length
strictly between 3 and 100, appearing as a sublist of the cleaned lines
in their original order; and on the raw text
`"1. Sure thing!\n2. ok\n-  Let's do it tomorrow"` with `M = 3` it
returns exactly `["Sure thing!", "Let's do it tomorrow"]`. -/
theorem C6_extractor_bounds_order (raw : String) (M : Nat) (h : 1 ≤ M) :
    (extractSuggestions raw M).length ≤ M
    ∧ (∀ s ∈ extractSuggestions raw M, 3 < s.length ∧ s.length < 100)
    ∧ (extractSuggestions raw M).Sublist ((pySplitLines raw).map cleanLine)
    ∧ extractSuggestions "1. Sure thing!\n2. ok\n-  Let\x27s do it tomorrow" 3
        = ["Sure thing!", "Let\x27s do it tomorrow"] := by
  refine ⟨?_, ?_, ?_, by decide⟩
  · exact extractLoop_length_le M (pySplitLines raw) [] (by simpa using h)
  · exact extractLoop_mem M (pySplitLines raw) [] (by intro s hs; cases hs)
  · rcases extractLoop_acc_sublist M (pySplitLines raw) [] with ⟨r, hEq, hSub⟩
    have : extractSuggestions raw M = r := by
      rw [extractSuggestions, hEq, List.nil_append]
    rw [this]
    exact hSub

/-- C6 witness: the theorem instantiated at the spec's concrete scenario
(`M = 3`). -/
theorem C6_extractor_bounds_order_witness :
    (extractSuggestions "1. ok then!\nsecond line here" 3).length ≤ 3 := by
  exact (C6_extractor_bounds_order "1. ok then!\nsecond line here" 3 (by decide)).1

/-- Reference behaviour written from the spec sentence of C4: strip only
the FIRST matching marker of the recognized set from the stripped line,
never a second one. -/
def cleanLineSpecFirstOnly (l : String) : String :=
  match markers.find? (fun p => pyStartsWith (pyStrip l) p) with
  | some p => pyStrip (pyDropChars (pyStrip l) p.length)
  | none => pyStrip l

/-- C4 counterexample: on the line `"1.* Great idea!"` the code strips
both `"1."` and then `"*"`, while the claimed first-marker-only clean-up
would leave `"* Great idea!"` — so the claim that only the first matching
marker is removed, with no repeated stripping, is false. -/
theorem C4_counterexample :
    cleanLine "1.* Great idea!" = "Great idea!"
    ∧ cleanLineSpecFirstOnly "1.* Great idea!" = "* Great idea!"
    ∧ extractSuggestions "1.* Great idea!" 3 = ["Great idea!"]
    ∧ cleanLine "1.* Great idea!" ≠ cleanLineSpecFirstOnly "1.* Great idea!" := by
  refine ⟨by decide, by decide, by decide, by decide⟩

/-- C4 amended: per line, the markers are tried once each in the fixed
order `1.`, `2.`, `3.`, `-`, `*`, `•`; every marker that matches when its
turn comes is stripped (with re-trimming), so a line can lose several
distinct markers — but each marker is applied at most once, and a line
whose stripped form starts with no recognized marker is left as its
stripped form.  Concretely a doubled identical marker survives once
(`"- - hi there"` → `"- hi there"`) while mixed markers are both removed
(`"1.* Great idea!"` → `"Great idea!"`). -/
theorem C4_single_pass_stripping (l : String)
    (h : ∀ p ∈ markers, pyStartsWith (pyStrip l) p = false) :
    cleanLine l = pyStrip l
    ∧ cleanLine "- - hi there" = "- hi there"
    ∧ cleanLine "1.* Great idea!" = "Great idea!" := by
  refine ⟨?_, by decide, by decide⟩
  have hFold : ∀ ms ⊆ markers, ms.foldl stripStep (pyStrip l) = pyStrip l := by
    intro ms
    induction ms with
    | nil => intro _; rfl
    | cons p ms ih =>
      intro hsub
      have hp : pyStartsWith (pyStrip l) p = false :=
        h p (hsub (List.mem_cons_self p ms))
      have : stripStep (pyStrip l) p = pyStrip l := by
        rw [stripStep, hp]
        simp
      rw [List.foldl_cons, this]
      exact ih (fun x hx => hsub (List.mem_cons_of_mem p hx))
  exact hFold markers (fun x hx => hx)

/-- C4 witness: the amended theorem applied to a line starting with no
recognized marker. -/
theorem C4_single_pass_stripping_witness :
    cleanLine "hello there" = pyStrip "hello there" :=
  (C4_single_pass_stripping "hello there" (by decide)).1

/-! ## Branch equations of the endpoints -/

theorem gsr_unreachable (msgs : List Message) (u : String) (M : Nat) (msg : String) :
    generate_smart_replies msgs u M (Upstream.unreachable msg) = hardFailureSuggestions := rfl

theorem gsr_non200 (msgs : List Message) (u : String) (M : Nat)
    (s : Nat) (b : String) (j : ResponseData) (h : s ≠ 200) :
    generate_smart_replies msgs u M (Upstream.httpResponse s b j) = hardFailureSuggestions := by
  have hq : query_huggingface (Upstream.httpResponse s b j)
      = Except.error (PyError.httpExc ⟨s, "Error from Hugging Face API: " ++ b⟩) := by
    simp only [query_huggingface]
    rw [if_pos h]
  unfold generate_smart_replies
  rw [hq]

theorem gsr_nonList (msgs : List Message) (u : String) (M : Nat) (b : String) :
    generate_smart_replies msgs u M (Upstream.httpResponse 200 b ResponseData.nonList)
      = malformedResponseSuggestions := rfl

theorem gsr_emptyList (msgs : List Message) (u : String) (M : Nat) (b : String) :
    generate_smart_replies msgs u M (Upstream.httpResponse 200 b (ResponseData.list []))
      = malformedResponseSuggestions := rfl

theorem gsr_badEntry (msgs : List Message) (u : String) (M : Nat) (b : String)
    (msg : String) (rest : List Entry) :
    generate_smart_replies msgs u M
        (Upstream.httpResponse 200 b (ResponseData.list (Entry.bad msg :: rest)))
      = hardFailureSuggestions := rfl

theorem gsr_record (msgs : List Message) (u : String) (M : Nat) (b : String)
    (g : Option String) (rest : List Entry) :
    generate_smart_replies msgs u M
        (Upstream.httpResponse 200 b (ResponseData.list (Entry.record g :: rest)))
      = (if (extractSuggestions (pyStrip (g.getD "")) M).isEmpty
          then contextFallback msgs
          else extractSuggestions (pyStrip (g.getD "")) M).take M := rfl

theorem chat_unreachable (past gen : List String) (text msg : String) :
    chat past gen text (Upstream.unreachable msg) = Except.error ⟨500, msg⟩ := rfl

theorem chat_non200 (past gen : List String) (text : String)
    (s : Nat) (b : String) (j : ResponseData) (h : s ≠ 200) :
    chat past gen text (Upstream.httpResponse s b j)
      = Except.error ⟨500, toString s ++ ": " ++ ("Error from Hugging Face API: " ++ b)⟩ := by
  have hq : query_huggingface (Upstream.httpResponse s b j)
      = Except.error (PyError.httpExc ⟨s, "Error from Hugging Face API: " ++ b⟩) := by
    simp only [query_huggingface]
    rw [if_pos h]
  unfold chat
  rw [hq]
  rfl

theorem chat_record (past gen : List String) (text b : String)
    (g : Option String) (rest : List Entry) :
    chat past gen text (Upstream.httpResponse 200 b (ResponseData.list (Entry.record g :: rest)))
      = Except.ok (pyStrip (g.getD "")) := rfl

theorem chat_nonList (past gen : List String) (text b : String) :
    chat past gen text (Upstream.httpResponse 200 b ResponseData.nonList)
      = Except.ok "I am not sure how to respond to that." := rfl

theorem chat_emptyList (past gen : List String) (text b : String) :
    chat past gen text (Upstream.httpResponse 200 b (ResponseData.list []))
      = Except.ok "I am not sure how to respond to that." := rfl

/-- C1 counterexample: with `max_suggestions = 1` (allowed, `1 ≤ 1 ≤ 5`)
and a success response whose JSON is not a list, the endpoint returns the
fixed 3-element list `["Thanks!", "Got it!", "Sounds good!"]` without
truncation, so the returned list is NOT of length at most `M`. -/
theorem C1_counterexample :
    generate_smart_replies [] "bob" 1 (Upstream.httpResponse 200 "{}" ResponseData.nonList)
      = ["Thanks!", "Got it!", "Sounds good!"]
    ∧ ¬ ((generate_smart_replies [] "bob" 1
          (Upstream.httpResponse 200 "{}" ResponseData.nonList)).length ≤ 1) := by
  refine ⟨by decide, by decide⟩

/-- C1 amended: the smart-reply operation is total — it returns a plain
suggestion list on every execution path, never an error — and the list
has length at most `max M 3`: at most `M` on every path that reaches the
extractor (success response whose JSON is a non-empty list headed by a
record), and exactly a fixed 3-element set on the malformed-response and
failure paths, which is not truncated to `M`. -/
theorem C1_smart_replies_total_bounded (msgs : List Message) (u : String)
    (M : Nat) (up : Upstream) :
    (generate_smart_replies msgs u M up).length ≤ max M 3
    ∧ ∀ (b : String) (g : Option String) (rest : List Entry),
        (generate_smart_replies msgs u M
          (Upstream.httpResponse 200 b (ResponseData.list (Entry.record g :: rest)))).length
          ≤ M := by
  constructor
  · cases up with
    | unreachable msg =>
      rw [gsr_unreachable]
      exact le_trans (by decide) (Nat.le_max_right M 3)
    | httpResponse s b j =>
      by_cases hs : s = 200
      · subst hs
        cases j with
        | nonList =>
          rw [gsr_nonList]
          exact le_trans (by decide) (Nat.le_max_right M 3)
        | list entries =>
          cases entries with
          | nil =>
            rw [gsr_emptyList]
            exact le_trans (by decide) (Nat.le_max_right M 3)
          | cons e rest =>
            cases e with
            | bad msg =>
              rw [gsr_badEntry]
              exact le_trans (by decide) (Nat.le_max_right M 3)
            | record g =>
              rw [gsr_record]
              exact le_trans (List.length_take_le _ _) (Nat.le_max_left M 3)
      · rw [gsr_non200 _ _ _ _ _ _ hs]
        exact le_trans (by decide) (Nat.le_max_right M 3)
  · intro b g rest
    rw [gsr_record]
    exact List.length_take_le _ _

/-- C2: for every chat-continuation request whose upstream call fails —
a non-success status, or the collaborator unreachable — the endpoint
propagates an `HTTPException` with service status 500 whose detail
carries the upstream status code and the upstream message (for a
non-success status the detail is literally
`"{status}: Error from Hugging Face API: {body}"`; for an unreachable
collaborator it is the transport error's message). -/
theorem C2_chat_upstream_failure (past gen : List String) (text b errMsg : String)
    (s : Nat) (j : ResponseData) (h : s ≠ 200) :
    chat past gen text (Upstream.httpResponse s b j)
      = Except.error ⟨500, toString s ++ ": " ++ ("Error from Hugging Face API: " ++ b)⟩
    ∧ chat past gen text (Upstream.unreachable errMsg) = Except.error ⟨500, errMsg⟩ :=
  ⟨chat_non200 past gen text s b j h, chat_unreachable past gen text errMsg⟩

/-- C2 witness: the theorem applied at a concrete failed exchange
(status 503, body "overloaded"). -/
theorem C2_chat_upstream_failure_witness :
    chat [] [] "Hi" (Upstream.httpResponse 503 "overloaded" ResponseData.nonList)
      = Except.error ⟨500, toString 503 ++ ": " ++ ("Error from Hugging Face API: " ++ "overloaded")⟩ :=
  (C2_chat_upstream_failure [] [] "Hi" "overloaded" "x" 503 ResponseData.nonList (by decide)).1

/-- C3 counterexample: a success response `[{}]` — a non-empty list whose
first record has no `generated_text` — is an absent generated result, yet
the reply is the empty string, not the literal
`"I am not sure how to respond to that."`. -/
theorem C3_counterexample :
    chat [] [] "Hi" (Upstream.httpResponse 200 "[{}]" (ResponseData.list [Entry.record none]))
      = Except.ok ""
    ∧ ("" : String) ≠ "I am not sure how to respond to that." := by
  refine ⟨rfl, by decide⟩

/-- C3 amended: on a successful upstream call, when the response JSON is
a non-empty list headed by a record, the reply equals the generated text
(absent read as `""`) trimmed of surrounding whitespace — so an empty or
absent `generated_text` yields the empty string; the literal placeholder
`"I am not sure how to respond to that."` is returned exactly when the
response JSON is an empty list or not a list at all. -/
theorem C3_chat_reply_shaping (past gen : List String) (text b : String)
    (g : Option String) (rest : List Entry) :
    chat past gen text (Upstream.httpResponse 200 b (ResponseData.list (Entry.record g :: rest)))
      = Except.ok (pyStrip (g.getD ""))
    ∧ chat past gen text (Upstream.httpResponse 200 b (ResponseData.list []))
      = Except.ok "I am not sure how to respond to that."
    ∧ chat past gen text (Upstream.httpResponse 200 b ResponseData.nonList)
      = Except.ok "I am not sure how to respond to that." :=
  ⟨chat_record past gen text b g rest, chat_emptyList past gen text b,
    chat_nonList past gen text b⟩

/-- C5 counterexample: upstream call succeeds (status 200) with a
malformed generation — the JSON is an empty list, so the text is absent —
and a prior message exists, yet the result is the fixed set
`["Thanks!", "Got it!", "Sounds good!"]` of the malformed-response
branch, not the context-aware tier of the FallbackSelector (which would
give the default set for `"hello"`). -/
theorem C5_counterexample :
    generate_smart_replies [⟨"alice", "hello"⟩] "bob" 3
        (Upstream.httpResponse 200 "[]" (ResponseData.list []))
      = ["Thanks!", "Got it!", "Sounds good!"]
    ∧ contextFallback [⟨"alice", "hello"⟩] = ["Got it!", "Makes sense", "Thanks for the update"]
    ∧ generate_smart_replies [⟨"alice", "hello"⟩] "bob" 3
        (Upstream.httpResponse 200 "[]" (ResponseData.list []))
      ≠ contextFallback [⟨"alice", "hello"⟩] := by
  refine ⟨by decide, by decide, by decide⟩

/-- C5 amended: the FallbackSelector's context-aware / no-context tiers
(`contextFallback`, truncated to `M`) decide the result exactly when the
success response's JSON is a non-empty list headed by a record whose
generated text yields no extracted suggestion; a success response whose
JSON is empty or not a list instead returns the distinct fixed set
`["Thanks!", "Got it!", "Sounds good!"]` untruncated. -/
theorem C5_empty_generation_fallback (msgs : List Message) (u : String) (M : Nat)
    (b : String) (g : Option String) (rest : List Entry)
    (h : extractSuggestions (pyStrip (g.getD "")) M = []) :
    generate_smart_replies msgs u M
        (Upstream.httpResponse 200 b (ResponseData.list (Entry.record g :: rest)))
      = (contextFallback msgs).take M
    ∧ generate_smart_replies msgs u M (Upstream.httpResponse 200 b (ResponseData.list []))
      = ["Thanks!", "Got it!", "Sounds good!"] := by
  constructor
  · rw [gsr_record, h]
    simp
  · rw [gsr_emptyList]
    rfl

/-- C5 witness: the amended theorem at a concrete request whose record
carries no generated text. -/
theorem C5_empty_generation_fallback_witness :
    generate_smart_replies [⟨"alice", "See you at the meeting?"⟩] "bob" 3
        (Upstream.httpResponse 200 "" (ResponseData.list [Entry.record none]))
      = (contextFallback [⟨"alice", "See you at the meeting?"⟩]).take 3 :=
  (C5_empty_generation_fallback [⟨"alice", "See you at the meeting?"⟩] "bob" 3 ""
    none [] (by decide)).1

/-- C7: the FallbackSelector is a deterministic pure function of the
call-failed flag, history non-emptiness and the last message's content:
a failed inference call (unreachable collaborator or non-success status)
yields `["Thanks!", "Got it!", "Let me check on that"]` regardless of
context; with no prior message the selector yields
`["Hi there!", "Thanks!", "Sounds good!"]`; otherwise only the last
message decides, through the fixed priority order `?` → thanks →
meeting → default; in particular `"See you at the meeting?"` hits the
question-mark rule, not the meeting rule. -/
theorem C7_fallback_selector (msgs pre : List Message) (m : Message)
    (u msg b : String) (M s : Nat) (j : ResponseData) (h : s ≠ 200) :
    generate_smart_replies msgs u M (Upstream.unreachable msg)
      = ["Thanks!", "Got it!", "Let me check on that"]
    ∧ generate_smart_replies msgs u M (Upstream.httpResponse s b j)
      = ["Thanks!", "Got it!", "Let me check on that"]
    ∧ contextFallback [] = ["Hi there!", "Thanks!", "Sounds good!"]
    ∧ contextFallback (pre ++ [m])
      = (if pyContains (pyLower m.content) "?" then
          ["Thanks for asking!", "Let me think about that", "Good question!"]
        else if pyContains (pyLower m.content) "thanks"
            || pyContains (pyLower m.content) "thank you" then
          ["You\x27re welcome!", "No problem!", "Happy to help!"]
        else if pyContains (pyLower m.content) "meeting" then
          ["Sounds good!", "I\x27ll be there", "What time works?"]
        else
          ["Got it!", "Makes sense", "Thanks for the update"])
    ∧ contextFallback [⟨"alice", "See you at the meeting?"⟩]
      = ["Thanks for asking!", "Let me think about that", "Good question!"] := by
  refine ⟨gsr_unreachable msgs u M msg, gsr_non200 msgs u M s b j h, by decide, ?_, by decide⟩
  unfold contextFallback
  rw [List.getLast?_concat]

/-- C7 witness: the theorem at a concrete failed exchange and a concrete
two-message history. -/
theorem C7_fallback_selector_witness :
    generate_smart_replies [] "bob" 3 (Upstream.httpResponse 404 "gone" ResponseData.nonList)
      = ["Thanks!", "Got it!", "Let me check on that"] :=
  (C7_fallback_selector [] [] ⟨"a", "b"⟩ "bob" "m" "gone" 3 404 ResponseData.nonList
    (by decide)).2.1

theorem smartFooter_split (u : String) :
    smartFooter u
      = ("\n\nGenerate 3 reply suggestions for " ++ u ++ ":") ++ "</s>\n<|assistant|>" := by
  rw [smartFooter]
  rw [show (":</s>\n<|assistant|>" : String) = ":" ++ "</s>\n<|assistant|>" from rfl]
  simp only [String.append_assoc]

/-- C8: for every (possibly empty) history the assembled chat prompt is
non-empty and ends with the bare assistant marker `<|assistant|>`; with
one prior pair (`"Hi"`, `"Hello!"`) and new text `"How are you?"` it is
exactly the user block for "Hi", the assistant block for "Hello!", the
user block for "How are you?" and the bare marker, joined by single line
breaks, in that order. -/
theorem C8_chat_prompt_grammar (past gen : List String) (text : String) :
    (∃ p : String, buildChatPrompt past gen text = p ++ "<|assistant|>")
    ∧ buildChatPrompt past gen text ≠ ""
    ∧ buildChatPrompt ["Hi"] ["Hello!"] "How are you?"
      = "<|user|>\nHi</s>\n<|assistant|>\nHello!</s>\n<|user|>\nHow are you?</s>\n<|assistant|>" := by
  have hlist : ((past.zip gen).flatMap (fun p => [userBlock p.1, assistantBlock p.2]))
        ++ [userBlock text, "<|assistant|>"]
      = (((past.zip gen).flatMap (fun p => [userBlock p.1, assistantBlock p.2]))
          ++ [userBlock text]) ++ ["<|assistant|>"] := by
    rw [List.append_assoc]
    rfl
  have hEnds : ∃ p : String, buildChatPrompt past gen text = p ++ "<|assistant|>" := by
    rw [buildChatPrompt, hlist]
    exact intercalate_last "\n" "<|assistant|>" _
  refine ⟨hEnds, ?_, by decide⟩
  rcases hEnds with ⟨p, hp⟩
  rw [hp]
  exact append_marker_ne_empty p "<|assistant|>" (by decide)

/-- C9: the transcript block of the suggestion prompt is built from
exactly the last `min 10 L` messages of the history, order preserved (a
suffix of the input), each rendered as `"{author}: {content}"` and joined
by line breaks; the prompt is the fixed instruction, the transcript and
the closing instruction ending in the bare assistant marker — and when
the window is empty the transcript block is the empty string while the
instruction and trailing marker are still emitted. -/
theorem C9_smart_prompt_window (msgs : List Message) (u : String) :
    (windowMessages msgs).length = min 10 msgs.length
    ∧ windowMessages msgs <:+ msgs
    ∧ buildSmartPrompt msgs u
      = smartHeader u ++ renderTranscript (windowMessages msgs) ++ smartFooter u
    ∧ renderTranscript [] = ""
    ∧ (∃ p : String, buildSmartPrompt msgs u = p ++ "</s>\n<|assistant|>")
    ∧ renderTranscript [⟨"alice", "hey"⟩, ⟨"bob", "yo"⟩] = "alice: hey\nbob: yo" := by
  refine ⟨?_, ?_, rfl, rfl, ?_, by decide⟩
  · rw [windowMessages, List.length_drop]
    omega
  · exact List.drop_suffix _ _
  · refine ⟨smartHeader u ++ renderTranscript (windowMessages msgs)
      ++ ("\n\nGenerate 3 reply suggestions for " ++ u ++ ":"), ?_⟩
    rw [buildSmartPrompt, smartFooter_split]
    simp only [String.append_assoc]

/-- C10: when `past_user_inputs` and `generated_responses` have unequal
lengths, no error is raised — prompt assembly is a total function — and
the prompt equals the one built from only the first
`min (len past) (len gen)` pairs: the surplus entries of the longer list
are dropped by `zip` without affecting the output. -/
theorem C10_mismatched_history_truncated (past gen : List String) (text : String) :
    buildChatPrompt past gen text
      = buildChatPrompt (past.take (min past.length gen.length))
          (gen.take (min past.length gen.length)) text := by
  rw [buildChatPrompt, buildChatPrompt, zip_take_min]
